import Mathlib

/-!
Verification of the migration-metrics reporting core.

The definitions below are shallow embeddings of the Python source:

* schema structures and derived quantities (src/migration/reporting/schema.py),
* the percentile computation and the SQLite-backed aggregate store
  (src/migration/reporting/database.py),
* the live metrics collector (src/migration/reporting/collector.py),
* the Rust inline-test line classifier (src/migration/runner.py).

Conventions: Python int is modelled as Int, Python float arithmetic is
modelled exactly over Rat, Python str as String, Python dict as an
insertion-ordered association list, Optional as Option, and a raised
exception as an Except error value.  Wall-clock instants read by the
collector are passed in explicitly as Rat values.
-/

/-- Truncation toward zero, the behaviour of the Python int() conversion
applied to a (real-valued) quantity. -/
def pyInt (q : ℚ) : ℤ :=
  if q < 0 then -Int.floor (-q) else Int.floor q

/-! ## Schema (schema.py) -/

/-- SCHEMA_VERSION constant from schema.py. -/
def SCHEMA_VERSION : String := "1.0.0"

/-- IdentityMetrics dataclass. -/
structure IdentityMetrics where
  run_id : String
  project_name : String
  source_language : String
  target_language : String
  strategy : String
  started_at : String
  completed_at : Option String := none
  host_platform : Option String := none
  sdk_version : Option String := none
  model_id : Option String := none
deriving DecidableEq, Repr

/-- ModuleTiming dataclass. -/
structure ModuleTiming where
  module_name : String
  duration_ms : ℤ
  attempts : ℤ := 1
deriving DecidableEq, Repr

/-- TimingMetrics dataclass; the phase dictionary is an insertion-ordered
association list. -/
structure TimingMetrics where
  wall_clock_duration_ms : ℤ := 0
  api_duration_ms : ℤ := 0
  phase_durations_ms : List (String × ℤ) := []
  module_durations : List ModuleTiming := []
deriving DecidableEq, Repr

/-- CostMetrics dataclass. -/
structure CostMetrics where
  total_cost_usd : ℚ := 0
  input_tokens_cost_usd : ℚ := 0
  output_tokens_cost_usd : ℚ := 0
  cache_creation_cost_usd : ℚ := 0
deriving DecidableEq, Repr

/-- TokenMetrics dataclass. -/
structure TokenMetrics where
  input_tokens : ℤ := 0
  output_tokens : ℤ := 0
  cache_creation_input_tokens : ℤ := 0
  cache_read_input_tokens : ℤ := 0
deriving DecidableEq, Repr

/-- The derived property named cache_efficiency_ratio in schema.py:
cache reads over (cache reads plus fresh input), with 0 for an empty
denominator.  Python float division is modelled exactly over Rat. -/
def TokenMetrics.cache_efficiency (t : TokenMetrics) : ℚ :=
  let total := t.cache_read_input_tokens + t.input_tokens
  if total = 0 then 0
  else (t.cache_read_input_tokens : ℚ) / (total : ℚ)

/-- AgentMetrics dataclass. -/
structure AgentMetrics where
  total_turns : ℤ := 0
  total_messages : ℤ := 0
  subagent_invocations : List (String × ℤ) := []
  tool_invocations : List (String × ℤ) := []
  error_recovery_events : ℤ := 0
  retry_count : ℤ := 0
deriving DecidableEq, Repr

/-- CodeMetrics dataclass. -/
structure CodeMetrics where
  production_loc : ℤ := 0
  test_loc : ℤ := 0
  total_loc : ℤ := 0
  module_count : ℤ := 0
  function_count : ℤ := 0
  avg_cyclomatic_complexity : ℚ := 0
  max_cyclomatic_complexity : ℤ := 0
  external_dependencies : ℤ := 0
  maintainability_index : Option ℚ := none
deriving DecidableEq, Repr

/-- CompilationResult dataclass. -/
structure CompilationResult where
  passed : Bool := false
  error_count : ℤ := 0
  warning_count : ℤ := 0
deriving DecidableEq, Repr

/-- LintingResult dataclass. -/
structure LintingResult where
  passed : Bool := false
  tool : String := ""
  error_count : ℤ := 0
  warning_count : ℤ := 0
deriving DecidableEq, Repr

/-- FormattingResult dataclass. -/
structure FormattingResult where
  passed : Bool := false
  tool : String := ""
deriving DecidableEq, Repr

/-- TestResult dataclass. -/
structure TestResult where
  passed : Bool := false
  total : ℤ := 0
  passed_count : ℤ := 0
  failed_count : ℤ := 0
  skipped_count : ℤ := 0
deriving DecidableEq, Repr

/-- CoverageResult dataclass. -/
structure CoverageResult where
  line_coverage_pct : Option ℚ := none
  function_coverage_pct : Option ℚ := none
  branch_coverage_pct : Option ℚ := none
deriving DecidableEq, Repr

/-- QualityGates dataclass. -/
structure QualityGates where
  compilation : CompilationResult := {}
  linting : LintingResult := {}
  formatting : FormattingResult := {}
  unit_tests : TestResult := {}
  coverage : CoverageResult := {}
deriving DecidableEq, Repr

/-- FeatureResult dataclass. -/
structure FeatureResult where
  feature : String
  test_count : ℤ
  passed : ℤ
  status : String
deriving DecidableEq, Repr

/-- The IOContractMetrics dataclass of schema.py (renamed here). -/
structure ContractMetrics where
  total_test_cases : ℤ := 0
  passed : ℤ := 0
  failed : ℤ := 0
  unsupported : ℤ := 0
  feature_results : List FeatureResult := []
deriving DecidableEq, Repr

/-- The derived property match_rate_pct of IOContractMetrics: the code
returns (passed / total_test_cases) * 100, with 0 for zero total. -/
def ContractMetrics.match_rate_pct (m : ContractMetrics) : ℚ :=
  if m.total_test_cases = 0 then 0
  else ((m.passed : ℚ) / (m.total_test_cases : ℚ)) * 100

/-- OutcomeMetrics dataclass. -/
structure OutcomeMetrics where
  status : String := "failure"
  modules_completed : ℤ := 0
  modules_total : ℤ := 0
  blocking_issues : List String := []
  notes : Option String := none
deriving DecidableEq, Repr

/-- MigrationMetrics dataclass: the complete record for one run. -/
structure MigrationMetrics where
  identity : IdentityMetrics
  timing : TimingMetrics := {}
  cost : CostMetrics := {}
  tokens : TokenMetrics := {}
  agent : AgentMetrics := {}
  source_metrics : CodeMetrics := {}
  target_metrics : CodeMetrics := {}
  quality_gates : QualityGates := {}
  io_contract : ContractMetrics := {}
  outcome : OutcomeMetrics := {}
  schema_version : String := SCHEMA_VERSION
deriving DecidableEq, Repr

/-! ## Percentile computation (database.py, MigrationDatabase._percentile) -/

/-- MigrationDatabase._percentile from database.py.  The list holds the
pre-sorted duration values; Python float arithmetic is modelled exactly
over Rat, and int(k) is truncation toward zero.  For 0 <= p <= 100 the
indices are within range, matching the Python list accesses (the store
only ever calls this with p = 50 and p = 95). -/
def percentile (values : List ℚ) (p : ℚ) : ℚ :=
  if values.isEmpty then 0
  else
    let k : ℚ := ((values.length : ℚ) - 1) * p / 100
    let f : ℤ := pyInt k
    let c : ℤ := if f + 1 < (values.length : ℤ) then f + 1 else f
    values.getD f.toNat 0 +
      (values.getD c.toNat 0 - values.getD f.toNat 0) * (k - (f : ℚ))

/-- Claim C1: for a non-empty sorted duration list and a target percentile
p between 0 and 100, the percentile computation of the store equals the
stated linear interpolation with f the floor index and c = min (f+1) (n-1). -/
theorem percentile_interpolation (values : List ℚ) (p : ℚ)
    (hne : values ≠ []) (hsort : values.Sorted (· ≤ ·))
    (h0 : 0 ≤ p) (h100 : p ≤ 100) :
    percentile values p =
      values.getD (Int.toNat ⌊((values.length : ℚ) - 1) * p / 100⌋) 0 +
        (values.getD
            (min (Int.toNat ⌊((values.length : ℚ) - 1) * p / 100⌋ + 1)
              (values.length - 1)) 0 -
          values.getD (Int.toNat ⌊((values.length : ℚ) - 1) * p / 100⌋) 0) *
        (((values.length : ℚ) - 1) * p / 100 -
          (⌊((values.length : ℚ) - 1) * p / 100⌋ : ℚ)) := by
  have hlen : 0 < values.length := List.length_pos.mpr hne
  have hlen1 : (1 : ℚ) ≤ (values.length : ℚ) := by exact_mod_cast hlen
  set k : ℚ := ((values.length : ℚ) - 1) * p / 100 with hk
  have hk0 : 0 ≤ k := by
    apply div_nonneg _ (by norm_num)
    exact mul_nonneg (by linarith) h0
  have hpy : pyInt k = ⌊k⌋ := by
    unfold pyInt
    rw [if_neg (not_lt.mpr hk0)]
  have hkle : k ≤ (values.length : ℚ) - 1 := by
    rw [hk, div_le_iff (by norm_num : (0 : ℚ) < 100)]
    nlinarith
  have hfl0 : 0 ≤ ⌊k⌋ := Int.floor_nonneg.mpr hk0
  have hfle : ⌊k⌋ ≤ (values.length : ℤ) - 1 := by
    have : (⌊k⌋ : ℚ) ≤ (values.length : ℚ) - 1 := le_trans (Int.floor_le k) hkle
    exact_mod_cast this
  have hempty : values.isEmpty = false := by
    simpa [List.isEmpty_iff] using hne
  unfold percentile
  rw [hempty]
  simp only [Bool.false_eq_true, if_false, hpy, ← hk]
  by_cases hc : ⌊k⌋ + 1 < (values.length : ℤ)
  · rw [if_pos hc]
    have h1 : (⌊k⌋ + 1).toNat = ⌊k⌋.toNat + 1 := by omega
    have h2 : ⌊k⌋.toNat + 1 ≤ values.length - 1 := by omega
    rw [h1, min_eq_left h2]
  · rw [if_neg hc]
    have h3 : ⌊k⌋.toNat = values.length - 1 := by omega
    have h4 : min (⌊k⌋.toNat + 1) (values.length - 1) = ⌊k⌋.toNat := by omega
    rw [h4]

/-- Example duration list from the spec: [60000, 120000, 180000]. -/
def d3 : List ℚ := [60000, 120000, 180000]

/-- Witness for claim C1: over the durations [60000, 120000, 180000] the
median (p = 50) is 120000 and the 95th percentile is 174000. -/
theorem percentile_interpolation_witness :
    percentile d3 50 = 120000 ∧ percentile d3 95 = 174000 := by
  have hs : d3.Sorted (· ≤ ·) := by
    simp only [d3, List.sorted_cons, List.mem_cons, List.mem_singleton]
    norm_num
  constructor
  · have h := percentile_interpolation d3 50 (by simp [d3]) hs
      (by norm_num) (by norm_num)
    rw [h]
    norm_num [d3]
  · have h := percentile_interpolation d3 95 (by simp [d3]) hs
      (by norm_num) (by norm_num)
    rw [h]
    have hfl : (⌊((3 : ℚ) - 1) * 95 / 100⌋ : ℤ) = 1 := by
      norm_num [Int.floor_eq_iff]
    norm_num [d3, hfl]

/-- Claim C2: the cache efficiency ratio is 0 when cache reads plus fresh
input tokens is 0, and otherwise equals cache reads divided by that sum. -/
theorem cache_efficiency_spec (t : TokenMetrics)
    (h1 : 0 ≤ t.cache_read_input_tokens) (h2 : 0 ≤ t.input_tokens) :
    (t.cache_read_input_tokens + t.input_tokens = 0 →
        TokenMetrics.cache_efficiency t = 0) ∧
    (t.cache_read_input_tokens + t.input_tokens ≠ 0 →
        TokenMetrics.cache_efficiency t =
          (t.cache_read_input_tokens : ℚ) /
            ((t.cache_read_input_tokens : ℚ) + (t.input_tokens : ℚ))) := by
  constructor
  · intro h
    unfold TokenMetrics.cache_efficiency
    simp [h]
  · intro h
    unfold TokenMetrics.cache_efficiency
    rw [if_neg h]
    push_cast
    ring

/-- Witness for claim C2: all-zero counters give ratio 0, and counters
with 100 fresh input tokens and 300 cache reads give ratio 3/4. -/
theorem cache_efficiency_spec_witness :
    TokenMetrics.cache_efficiency ⟨0, 0, 0, 0⟩ = 0 ∧
    TokenMetrics.cache_efficiency ⟨100, 0, 0, 300⟩ = 3 / 4 := by
  constructor
  · exact (cache_efficiency_spec ⟨0, 0, 0, 0⟩ (by norm_num) (by norm_num)).1
      (by norm_num)
  · have h := (cache_efficiency_spec ⟨100, 0, 0, 300⟩ (by norm_num)
      (by norm_num)).2 (by norm_num)
    rw [h]
    norm_num

/-- Concrete contract metrics: 2 test cases, 1 passed. -/
def c4ex : ContractMetrics := ⟨2, 1, 1, 0, []⟩

/-- Counterexample for claim C4: with 2 total test cases and 1 passed, the
derived value is 50, not the fraction 1/2 = passed / total_test_cases. -/
theorem match_rate_not_fraction :
    ContractMetrics.match_rate_pct c4ex ≠
      (c4ex.passed : ℚ) / (c4ex.total_test_cases : ℚ) ∧
    ContractMetrics.match_rate_pct c4ex = 50 := by
  constructor <;> norm_num [ContractMetrics.match_rate_pct, c4ex]

/-- Claim C4 (amended): the derived match rate percentage equals
(passed / total_test_cases) * 100, and equals 0 when total is 0. -/
theorem match_rate_pct_spec (m : ContractMetrics) :
    (m.total_test_cases = 0 → ContractMetrics.match_rate_pct m = 0) ∧
    (m.total_test_cases ≠ 0 →
        ContractMetrics.match_rate_pct m =
          ((m.passed : ℚ) / (m.total_test_cases : ℚ)) * 100) := by
  unfold ContractMetrics.match_rate_pct
  constructor
  · intro h
    simp [h]
  · intro h
    rw [if_neg h]

/-- Witness for the amended claim C4: zero total gives 0; 1 passed of 2
gives 50. -/
theorem match_rate_pct_spec_witness :
    ContractMetrics.match_rate_pct ⟨0, 0, 0, 0, []⟩ = 0 ∧
    ContractMetrics.match_rate_pct c4ex = 1 / 2 * 100 := by
  constructor
  · exact (match_rate_pct_spec ⟨0, 0, 0, 0, []⟩).1 rfl
  · have h := (match_rate_pct_spec c4ex).2 (by norm_num [c4ex])
    rw [h]
    norm_num [c4ex]

/-! ## Live collector (collector.py, MetricsCollector) -/

/-- Python dict assignment d[k] = v on an insertion-ordered association
list: replace in place when the key exists, append otherwise. -/
def setKey {α : Type} (l : List (String × α)) (k : String) (v : α) :
    List (String × α) :=
  match l with
  | [] => [(k, v)]
  | (k0, v0) :: rest =>
      if k0 = k then (k0, v) :: rest else (k0, v0) :: setKey rest k v

/-- The usage sub-dictionary of a result payload; absent keys are none. -/
structure UsagePayload where
  input_tokens : Option ℤ := none
  output_tokens : Option ℤ := none
  cache_creation_input_tokens : Option ℤ := none
  cache_read_input_tokens : Option ℤ := none
deriving DecidableEq, Repr

/-- The generic key/value result payload consumed by record_result
(dictionary form); absent keys are none. -/
structure ResultPayload where
  duration_ms : Option ℤ := none
  duration_api_ms : Option ℤ := none
  total_cost_usd : Option ℚ := none
  num_turns : Option ℤ := none
  usage : Option UsagePayload := none
  subtype : Option String := none
deriving DecidableEq, Repr

/-- The mutable state of a MetricsCollector: the metric blocks plus the
private bookkeeping fields.  Wall-clock instants (time.time values) are
Rat numbers supplied by the caller of each operation. -/
structure CollectorState where
  identity : IdentityMetrics
  timing : TimingMetrics := {}
  cost : CostMetrics := {}
  tokens : TokenMetrics := {}
  agent : AgentMetrics := {}
  outcome : OutcomeMetrics := {}
  phase_start_times : List (String × ℚ) := []
  module_start_times : List (String × ℚ) := []
  module_attempts : List (String × ℤ) := []
  start_time : ℚ := 0
  message_count : ℤ := 0
deriving DecidableEq, Repr

/-- MetricsCollector.__init__: fresh blocks, empty bookkeeping; the
generated identity and the start instant are passed in explicitly. -/
def initCollector (identity : IdentityMetrics) (start_time : ℚ) :
    CollectorState :=
  { identity := identity, start_time := start_time }

/-- MetricsCollector.start_phase. -/
def MetricsCollector.start_phase (s : CollectorState) (phase_name : String)
    (now : ℚ) : CollectorState :=
  { s with phase_start_times := setKey s.phase_start_times phase_name now }

/-- MetricsCollector.end_phase: silently a no-op without a matching start. -/
def MetricsCollector.end_phase (s : CollectorState) (phase_name : String)
    (now : ℚ) : CollectorState :=
  match List.lookup phase_name s.phase_start_times with
  | some t0 =>
      { s with timing :=
          { s.timing with
              phase_durations_ms :=
                setKey s.timing.phase_durations_ms phase_name
                  (pyInt ((now - t0) * 1000)) } }
  | none => s

/-- MetricsCollector.start_module: records the start instant and bumps the
internal attempt counter for the module name. -/
def MetricsCollector.start_module (s : CollectorState) (module_name : String)
    (now : ℚ) : CollectorState :=
  { s with
      module_start_times := setKey s.module_start_times module_name now,
      module_attempts :=
        setKey s.module_attempts module_name
          ((List.lookup module_name s.module_attempts).getD 0 + 1) }

/-- MetricsCollector.end_module: appends one timing entry when a matching
start exists; the Python expression (attempts or internal) falls back to
the internal counter both when attempts is None and when it is 0. -/
def MetricsCollector.end_module (s : CollectorState) (module_name : String)
    (attempts : Option ℤ) (now : ℚ) : CollectorState :=
  match List.lookup module_name s.module_start_times with
  | some t0 =>
      let duration_ms := pyInt ((now - t0) * 1000)
      let internal := (List.lookup module_name s.module_attempts).getD 1
      let actual_attempts :=
        match attempts with
        | some a => if a = 0 then internal else a
        | none => internal
      { s with timing :=
          { s.timing with module_durations :=
              s.timing.module_durations ++
                [⟨module_name, duration_ms, actual_attempts⟩] } }
  | none => s

/-- MetricsCollector.record_tool_use. -/
def MetricsCollector.record_tool_use (s : CollectorState) (tool_name : String) :
    CollectorState :=
  { s with agent :=
      { s.agent with
          tool_invocations :=
            setKey s.agent.tool_invocations tool_name
              ((List.lookup tool_name s.agent.tool_invocations).getD 0 + 1) } }

/-- MetricsCollector.record_subagent. -/
def MetricsCollector.record_subagent (s : CollectorState) (agent_type : String) :
    CollectorState :=
  { s with agent :=
      { s.agent with
          subagent_invocations :=
            setKey s.agent.subagent_invocations agent_type
              ((List.lookup agent_type s.agent.subagent_invocations).getD 0 + 1) } }

/-- MetricsCollector.record_message. -/
def MetricsCollector.record_message (s : CollectorState) : CollectorState :=
  { s with message_count := s.message_count + 1 }

/-- MetricsCollector.record_error_recovery. -/
def MetricsCollector.record_error_recovery (s : CollectorState) :
    CollectorState :=
  { s with agent :=
      { s.agent with error_recovery_events := s.agent.error_recovery_events + 1 } }

/-- MetricsCollector.record_retry. -/
def MetricsCollector.record_retry (s : CollectorState) : CollectorState :=
  { s with agent := { s.agent with retry_count := s.agent.retry_count + 1 } }

/-- MetricsCollector.record_result, dictionary branch: extracts timing,
cost, token and turn data with zero/failure defaults for missing keys. -/
def MetricsCollector.record_result (s : CollectorState) (result : ResultPayload) :
    CollectorState :=
  let usage := result.usage.getD {}
  { s with
      timing :=
        { s.timing with
            wall_clock_duration_ms := result.duration_ms.getD 0,
            api_duration_ms := result.duration_api_ms.getD 0 },
      cost := { s.cost with total_cost_usd := result.total_cost_usd.getD 0 },
      agent := { s.agent with total_turns := result.num_turns.getD 0 },
      tokens :=
        { input_tokens := usage.input_tokens.getD 0,
          output_tokens := usage.output_tokens.getD 0,
          cache_creation_input_tokens := usage.cache_creation_input_tokens.getD 0,
          cache_read_input_tokens := usage.cache_read_input_tokens.getD 0 },
      outcome :=
        { s.outcome with status :=
            if result.subtype = some ("success") then "success" else "failure" } }

/-- MetricsCollector.set_outcome; Python evaluates (blocking_issues or []). -/
def MetricsCollector.set_outcome (s : CollectorState) (status : String)
    (modules_completed modules_total : ℤ)
    (blocking_issues : Option (List String)) (notes : Option String) :
    CollectorState :=
  { s with outcome :=
      { status := status,
        modules_completed := modules_completed,
        modules_total := modules_total,
        blocking_issues := blocking_issues.getD [],
        notes := notes } }

/-- MetricsCollector.finalize: sets the completion timestamp, copies the
message counter into the agent block, computes the wall-clock duration
from the start instant when the accumulated value is zero, and returns
the (mutated) state together with the resulting record.  The record is
built from the identity, timing, cost, tokens, agent and outcome blocks
only; every other MigrationMetrics field takes its default value. -/
def MetricsCollector.finalize (s : CollectorState) (now_iso : String)
    (now : ℚ) : CollectorState × MigrationMetrics :=
  let identity2 := { s.identity with completed_at := some now_iso }
  let agent2 := { s.agent with total_messages := s.message_count }
  let timing2 :=
    if s.timing.wall_clock_duration_ms = 0 then
      { s.timing with
          wall_clock_duration_ms := pyInt ((now - s.start_time) * 1000) }
    else s.timing
  ({ s with identity := identity2, agent := agent2, timing := timing2 },
   { identity := identity2, timing := timing2, cost := s.cost,
     tokens := s.tokens, agent := agent2, outcome := s.outcome })

/-- One collector event, pairing each mutating operation of the public
event API with the instant at which it runs where relevant. -/
inductive CollectorEvent where
  | startPhase (name : String) (now : ℚ)
  | endPhase (name : String) (now : ℚ)
  | startModule (name : String) (now : ℚ)
  | endModule (name : String) (attempts : Option ℤ) (now : ℚ)
  | toolUse (name : String)
  | subagentUse (agent_type : String)
  | message
  | errorRecovery
  | retryEvent
  | resultEvent (payload : ResultPayload)
  | outcomeEvent (status : String) (modules_completed modules_total : ℤ)
      (blocking_issues : Option (List String)) (notes : Option String)
deriving Repr

/-- Dispatch of one event to the corresponding collector operation. -/
def execEvent (s : CollectorState) : CollectorEvent → CollectorState
  | .startPhase n t => MetricsCollector.start_phase s n t
  | .endPhase n t => MetricsCollector.end_phase s n t
  | .startModule n t => MetricsCollector.start_module s n t
  | .endModule n a t => MetricsCollector.end_module s n a t
  | .toolUse n => MetricsCollector.record_tool_use s n
  | .subagentUse a => MetricsCollector.record_subagent s a
  | .message => MetricsCollector.record_message s
  | .errorRecovery => MetricsCollector.record_error_recovery s
  | .retryEvent => MetricsCollector.record_retry s
  | .resultEvent p => MetricsCollector.record_result s p
  | .outcomeEvent st c t bi n => MetricsCollector.set_outcome s st c t bi n

/-- Running a sequence of collector events from a state. -/
def runCollector (s : CollectorState) (evs : List CollectorEvent) :
    CollectorState :=
  evs.foldl execEvent s

/-- Claim C9: whatever sequence of collector events runs, the record
returned by finalize has all-default source_metrics, target_metrics,
quality_gates and io_contract blocks; no collector operation populates
those four blocks. -/
theorem collector_frame (identity : IdentityMetrics) (start : ℚ)
    (evs : List CollectorEvent) (now_iso : String) (now : ℚ) :
    (MetricsCollector.finalize (runCollector (initCollector identity start) evs)
        now_iso now).2.source_metrics = ({} : CodeMetrics) ∧
    (MetricsCollector.finalize (runCollector (initCollector identity start) evs)
        now_iso now).2.target_metrics = ({} : CodeMetrics) ∧
    (MetricsCollector.finalize (runCollector (initCollector identity start) evs)
        now_iso now).2.quality_gates = ({} : QualityGates) ∧
    (MetricsCollector.finalize (runCollector (initCollector identity start) evs)
        now_iso now).2.io_contract = ({} : ContractMetrics) :=
  ⟨rfl, rfl, rfl, rfl⟩

/-- Looking up a key right after setting it yields the stored value. -/
theorem lookup_setKey {α : Type} (l : List (String × α)) (k : String) (v : α) :
    List.lookup k (setKey l k v) = some v := by
  induction l with
  | nil => simp [setKey, List.lookup]
  | cons hd tl ih =>
    obtain ⟨k0, v0⟩ := hd
    by_cases h : k0 = k
    · subst h
      simp [setKey, List.lookup]
    · have hbeq : (k == k0) = false := beq_eq_false_iff_ne.mpr (Ne.symm h)
      simp [setKey, h, List.lookup, hbeq, ih]

/-- Concrete identity block used by the witnesses below. -/
def cId : IdentityMetrics :=
  { run_id := "run-1", project_name := "proj", source_language := "python",
    target_language := "rust", strategy := "module-by-module",
    started_at := "t0" }

/-- A result payload whose duration_ms key is present and equal to 0. -/
def c6payload : ResultPayload := { duration_ms := some 0 }

/-- Counterexample for claim C6: record_result populates the wall-clock
duration (here with the recorded value 0), yet finalize still recomputes
the duration from the start instant (5 seconds elapsed give 5000 ms), so
the recomputation is not restricted to the never-populated case. -/
theorem finalize_overwrites_zero_duration :
    (MetricsCollector.record_result (initCollector cId 0)
        c6payload).timing.wall_clock_duration_ms = 0 ∧
    (MetricsCollector.finalize
        (MetricsCollector.record_result (initCollector cId 0) c6payload)
        "T" 5).2.timing.wall_clock_duration_ms = 5000 := by
  constructor
  · rfl
  · simp only [MetricsCollector.finalize, MetricsCollector.record_result,
      initCollector, c6payload, Option.getD_some, Option.getD_none]
    norm_num [pyInt]

/-- Claim C6 (amended): finalize sets the completion timestamp to the
supplied instant, copies the internal message counter into the agent
block, computes the wall-clock duration from the start instant exactly
when the accumulated value is zero (in particular whenever record_result
never ran; a zero duration recorded by record_result is recomputed too),
and a second finalize call only recomputes the completion timestamp and
leaves every accumulated counter unchanged. -/
theorem finalize_spec (s : CollectorState) (t1 t2 : String) (n1 n2 : ℚ) :
    ((MetricsCollector.finalize s t1 n1).2.identity.completed_at = some t1) ∧
    ((MetricsCollector.finalize s t1 n1).2.agent.total_messages =
        s.message_count) ∧
    (s.timing.wall_clock_duration_ms = 0 →
        (MetricsCollector.finalize s t1 n1).2.timing.wall_clock_duration_ms =
          pyInt ((n1 - s.start_time) * 1000)) ∧
    (s.timing.wall_clock_duration_ms ≠ 0 →
        (MetricsCollector.finalize s t1 n1).2.timing = s.timing) ∧
    ((MetricsCollector.finalize (MetricsCollector.finalize s t1 n1).1 t2
          n2).1.agent = (MetricsCollector.finalize s t1 n1).1.agent) ∧
    ((MetricsCollector.finalize (MetricsCollector.finalize s t1 n1).1 t2
          n2).1.timing.phase_durations_ms =
        (MetricsCollector.finalize s t1 n1).1.timing.phase_durations_ms) ∧
    ((MetricsCollector.finalize (MetricsCollector.finalize s t1 n1).1 t2
          n2).1.timing.module_durations =
        (MetricsCollector.finalize s t1 n1).1.timing.module_durations) ∧
    ((MetricsCollector.finalize (MetricsCollector.finalize s t1 n1).1 t2
          n2).1.tokens = (MetricsCollector.finalize s t1 n1).1.tokens) ∧
    ((MetricsCollector.finalize (MetricsCollector.finalize s t1 n1).1 t2
          n2).1.cost = (MetricsCollector.finalize s t1 n1).1.cost) ∧
    ((MetricsCollector.finalize (MetricsCollector.finalize s t1 n1).1 t2
          n2).1.outcome = (MetricsCollector.finalize s t1 n1).1.outcome) ∧
    ((MetricsCollector.finalize (MetricsCollector.finalize s t1 n1).1 t2
          n2).1.identity.completed_at = some t2) := by
  refine ⟨rfl, rfl, ?_, ?_, rfl, ?_, ?_, rfl, rfl, rfl, rfl⟩
  · intro h
    simp [MetricsCollector.finalize, h]
  · intro h
    simp [MetricsCollector.finalize, h]
  · unfold MetricsCollector.finalize
    dsimp only
    split <;> first | rfl | (split <;> rfl)
  · unfold MetricsCollector.finalize
    dsimp only
    split <;> first | rfl | (split <;> rfl)

/-- Witness for the amended claim C6: a fresh collector finalized at
instant 1 with label t1 reports completion t1 and a computed wall-clock
duration of 1000 ms. -/
theorem finalize_spec_witness :
    (MetricsCollector.finalize (initCollector cId 0)
        "t1" 1).2.identity.completed_at = some ("t1") ∧
    (MetricsCollector.finalize (initCollector cId 0)
        "t1" 1).2.timing.wall_clock_duration_ms = 1000 := by
  refine ⟨(finalize_spec (initCollector cId 0) "t1" "t2" 1 2).1, ?_⟩
  have h := (finalize_spec (initCollector cId 0) "t1" "t2" 1 2).2.2.1 rfl
  rw [h]
  norm_num [pyInt, initCollector]

/-- Counterexample for claim C8: after one start_module, calling
end_module with the supplied attempt count 0 appends an entry whose
attempts field is the internally tracked count 1, not the supplied 0. -/
theorem end_module_zero_attempts :
    (MetricsCollector.end_module
        (MetricsCollector.start_module (initCollector cId 0) "m" 0)
        "m" (some 0) 1).timing.module_durations =
      [{ module_name := "m", duration_ms := 1000, attempts := 1 }] ∧
    (1 : ℤ) ≠ 0 := by
  constructor
  · simp [MetricsCollector.end_module, MetricsCollector.start_module,
      initCollector, setKey, List.lookup]
    norm_num [pyInt]
  · norm_num

/-- Claim C8 (amended): start_module increments the internal attempt
counter for the module name; a matching end_module appends exactly one
timing entry whose attempts field equals the supplied count when a
nonzero count is supplied and the internally tracked count otherwise (a
supplied count of 0 is treated like an omitted one); end_module without
a matching start_module changes nothing. -/
theorem end_module_spec (s : CollectorState) (module_name : String)
    (attempts : Option ℤ) (now : ℚ) :
    (List.lookup module_name s.module_start_times = none →
        MetricsCollector.end_module s module_name attempts now = s) ∧
    (∀ t0, List.lookup module_name s.module_start_times = some t0 →
        (MetricsCollector.end_module s module_name attempts
              now).timing.module_durations =
          s.timing.module_durations ++
            [{ module_name := module_name,
               duration_ms := pyInt ((now - t0) * 1000),
               attempts :=
                 match attempts with
                 | some a =>
                     if a = 0 then
                       (List.lookup module_name s.module_attempts).getD 1
                     else a
                 | none => (List.lookup module_name s.module_attempts).getD 1 }]) ∧
    (List.lookup module_name
        (MetricsCollector.start_module s module_name now).module_attempts =
      some ((List.lookup module_name s.module_attempts).getD 0 + 1)) := by
  refine ⟨?_, ?_, ?_⟩
  · intro h
    simp [MetricsCollector.end_module, h]
  · intro t0 h
    simp [MetricsCollector.end_module, h]
  · exact lookup_setKey s.module_attempts module_name _

/-- Witness for the amended claim C8: end_module on a module that was
never started is a no-op, and start_module on a fresh collector sets the
attempt counter to 1. -/
theorem end_module_spec_witness :
    MetricsCollector.end_module (initCollector cId 0) "m" none 1 =
      initCollector cId 0 ∧
    List.lookup ("m")
        (MetricsCollector.start_module (initCollector cId 0)
            "m" 0).module_attempts = some 1 := by
  constructor
  · exact (end_module_spec (initCollector cId 0) "m" none 1).1 rfl
  · have h := (end_module_spec (initCollector cId 0) "m" none 0).2.2
    simpa using h

/-! ## Persistent aggregate store (database.py, MigrationDatabase) -/

/-- One row of the migrations table: the denormalized columns written by
MigrationDatabase.insert.  The metrics_json column is a pure function of
the record (to_json), so it is modelled by the record itself; the
created_at column is a database-side default timestamp and carries no
record data. -/
structure MigRow where
  run_id : String
  project_name : String
  source_language : String
  target_language : String
  strategy : String
  started_at : String
  completed_at : Option String
  duration_ms : ℤ
  cost_usd : ℚ
  io_match_rate : ℚ
  line_coverage_pct : Option ℚ
  status : String
  source_loc : ℤ
  target_loc : ℤ
  metrics : MigrationMetrics
deriving DecidableEq, Repr

/-- The row written for a record, mirroring the insert statement tuple. -/
def rowOf (m : MigrationMetrics) : MigRow :=
  { run_id := m.identity.run_id,
    project_name := m.identity.project_name,
    source_language := m.identity.source_language,
    target_language := m.identity.target_language,
    strategy := m.identity.strategy,
    started_at := m.identity.started_at,
    completed_at := m.identity.completed_at,
    duration_ms := m.timing.wall_clock_duration_ms,
    cost_usd := m.cost.total_cost_usd,
    io_match_rate := ContractMetrics.match_rate_pct m.io_contract,
    line_coverage_pct := m.quality_gates.coverage.line_coverage_pct,
    status := m.outcome.status,
    source_loc := m.source_metrics.production_loc,
    target_loc := m.target_metrics.production_loc,
    metrics := m }

/-- The migrations table, a set of rows keyed by run_id. -/
abbrev Store := List MigRow

/-- MigrationDatabase.insert: INSERT OR REPLACE keyed on the run_id
primary key, i.e. any existing row with the same run_id is deleted and
the new row is stored. -/
def MigrationDatabase.insert (s : Store) (m : MigrationMetrics) : Store :=
  rowOf m :: s.filter (fun r => r.run_id != m.identity.run_id)

/-- MigrationDatabase.count: SELECT COUNT(*) over the table. -/
def MigrationDatabase.count (s : Store) : ℕ :=
  s.length

/-- MigrationDatabase.get: point lookup by run_id, deserializing the
stored record; absent when no row matches. -/
def MigrationDatabase.get (s : Store) (run_id : String) :
    Option MigrationMetrics :=
  (s.find? (fun r => r.run_id == run_id)).map (fun r => r.metrics)

/-- Filtering for a key right after removing that key yields nothing. -/
theorem filter_eq_after_remove (l : List MigRow) (id : String) :
    (l.filter (fun r => r.run_id != id)).filter (fun r => r.run_id == id) =
      [] := by
  induction l with
  | nil => rfl
  | cons hd tl ih =>
    by_cases h : hd.run_id = id <;> simp [List.filter_cons, h, ih]

/-- Removing a key twice is the same as removing it once. -/
theorem remove_idem (l : List MigRow) (id : String) :
    (l.filter (fun r => r.run_id != id)).filter (fun r => r.run_id != id) =
      l.filter (fun r => r.run_id != id) := by
  induction l with
  | nil => rfl
  | cons hd tl ih =>
    by_cases h : hd.run_id = id <;> simp [List.filter_cons, h, ih]

/-- Claim C5: insert is an upsert by run id.  After inserting a record,
exactly one row carries its run id and that row holds the new values;
re-inserting a record with the same run id leaves the row count
unchanged and the surviving row reflects the most recent insert. -/
theorem insert_upsert (s : Store) (m m2 : MigrationMetrics)
    (h : m2.identity.run_id = m.identity.run_id) :
    (MigrationDatabase.insert s m).filter
        (fun r => r.run_id == m.identity.run_id) = [rowOf m] ∧
    MigrationDatabase.count
        (MigrationDatabase.insert (MigrationDatabase.insert s m) m2) =
      MigrationDatabase.count (MigrationDatabase.insert s m) ∧
    MigrationDatabase.get
        (MigrationDatabase.insert (MigrationDatabase.insert s m) m2)
        m.identity.run_id = some m2 := by
  refine ⟨?_, ?_, ?_⟩
  · unfold MigrationDatabase.insert
    rw [List.filter_cons]
    simp only [rowOf, beq_self_eq_true, if_pos]
    rw [filter_eq_after_remove]
  · unfold MigrationDatabase.insert MigrationDatabase.count
    simp only [rowOf, h, List.length_cons, List.filter_cons, bne_self_eq_false,
      Bool.false_eq_true, if_false, remove_idem]
  · unfold MigrationDatabase.insert MigrationDatabase.get
    have hb : ((rowOf m2).run_id == m.identity.run_id) = true := by
      simp [rowOf, h]
    rw [@List.find?_cons_of_pos _ (fun r => r.run_id == m.identity.run_id)
      (rowOf m2) _ hb]
    rfl

/-- Two records sharing a run id but with different cost values. -/
def mA : MigrationMetrics := { identity := cId }

/-- Second record with the same run id as mA and cost 5. -/
def mB : MigrationMetrics :=
  { identity := cId, cost := { total_cost_usd := 5 } }

/-- Witness for claim C5: inserting mA then mB (same run id, different
cost) leaves the count unchanged and the surviving record is mB. -/
theorem insert_upsert_witness :
    MigrationDatabase.count
        (MigrationDatabase.insert (MigrationDatabase.insert [] mA) mB) =
      MigrationDatabase.count (MigrationDatabase.insert [] mA) ∧
    MigrationDatabase.get
        (MigrationDatabase.insert (MigrationDatabase.insert [] mA) mB)
        mA.identity.run_id = some mB :=
  ⟨(insert_upsert [] mA mB rfl).2.1, (insert_upsert [] mA mB rfl).2.2⟩

/-- AggregateStats dataclass from database.py. -/
structure AggregateStats where
  count : ℕ
  avg_duration_ms : ℚ
  median_duration_ms : ℚ
  p95_duration_ms : ℚ
  total_cost_usd : ℚ
  avg_cost_usd : ℚ
  avg_io_match_rate : ℚ
  success_rate_pct : ℚ
  avg_loc_expansion : ℚ
  avg_coverage_pct : Option ℚ := none
deriving DecidableEq, Repr

/-- Insertion into a sorted list, ascending. -/
def insertSorted (x : ℚ) : List ℚ → List ℚ
  | [] => [x]
  | y :: ys => if x ≤ y then x :: y :: ys else y :: insertSorted x ys

/-- Ascending sort, modelling the ORDER BY duration_ms query. -/
def sortList (l : List ℚ) : List ℚ :=
  l.foldr insertSorted []

/-- The statistics the aggregate query derives from a set of filtered
rows: COUNT, the AVG and SUM columns (SQL AVG ignores NULL values, which
only arise for the coverage and loc-expansion columns; an all-NULL
average falls back to 0 through the Python expression (x or 0), except
for avg_coverage_pct which stays absent), the success-rate CASE average,
and the interpolated median and 95th percentile of the sorted durations.
Returns none for an empty row set. -/
def aggregateRows (rows : List MigRow) : Option AggregateStats :=
  if rows.length = 0 then none
  else
    let n : ℚ := rows.length
    let durations := sortList (rows.map (fun r => (r.duration_ms : ℚ)))
    some
      { count := rows.length,
        avg_duration_ms := (rows.map (fun r => (r.duration_ms : ℚ))).sum / n,
        median_duration_ms := percentile durations 50,
        p95_duration_ms := percentile durations 95,
        total_cost_usd := (rows.map (fun r => r.cost_usd)).sum,
        avg_cost_usd := (rows.map (fun r => r.cost_usd)).sum / n,
        avg_io_match_rate := (rows.map (fun r => r.io_match_rate)).sum / n,
        success_rate_pct :=
          ((rows.filter (fun r => r.status == "success")).length : ℚ) / n * 100,
        avg_loc_expansion :=
          (let ratios := rows.filterMap (fun r =>
              if r.source_loc = 0 then none
              else some ((r.target_loc : ℚ) / (r.source_loc : ℚ)))
           if ratios.length = 0 then 0 else ratios.sum / (ratios.length : ℚ)),
        avg_coverage_pct :=
          (let cov := rows.filterMap (fun r => r.line_coverage_pct)
           if cov.length = 0 then none else some (cov.sum / (cov.length : ℚ))) }

/-- One optional filter parameter of aggregate, applied to a column.
Python tests each parameter with (if project:), so both an absent
parameter and an empty string impose no condition. -/
def matchesFilter (f : Option String) (col : String) : Bool :=
  match f with
  | none => true
  | some v => if v.isEmpty then true else col == v

/-- MigrationDatabase.aggregate: aggregate statistics over the rows
matching the conjunction of the optional project / target / strategy
filters; none when no row matches. -/
def MigrationDatabase.aggregate (s : Store)
    (project target strategy : Option String) : Option AggregateStats :=
  aggregateRows (s.filter (fun r =>
    matchesFilter project r.project_name &&
    matchesFilter target r.target_language &&
    matchesFilter strategy r.strategy))

/-- The column a grouping field selects (only called on allow-listed
fields, for which the final else branch is the strategy column). -/
def colOf (field : String) (r : MigRow) : String :=
  if field == "project_name" then r.project_name
  else if field == "target_language" then r.target_language
  else r.strategy

/-- The aggregate call group_by issues for one distinct value of the
grouping field: the field name is mapped to the matching keyword of
aggregate (project_name to project, target_language to target,
strategy to strategy). -/
def aggregateByField (s : Store) (field v : String) : Option AggregateStats :=
  if field == "project_name" then MigrationDatabase.aggregate s (some v) none none
  else if field == "target_language" then
    MigrationDatabase.aggregate s none (some v) none
  else MigrationDatabase.aggregate s none none (some v)

/-- The ValueError message raised for a field outside the allow-list
(abbreviated; the Python message also spells out the allowed list). -/
def groupByErrorMsg : String :=
  "Invalid group field. Must be one of: project_name, target_language, strategy"

/-- MigrationDatabase.group_by: for an allow-listed field, the mapping
from each distinct column value to the aggregate statistics of the rows
selected by the corresponding filter, skipping values whose aggregate is
none; for any other field, a ValueError. -/
def MigrationDatabase.group_by (s : Store) (field : String) :
    Except String (List (String × AggregateStats)) :=
  if field == "project_name" || field == "target_language" ||
      field == "strategy" then
    .ok (((s.map (colOf field)).dedup).filterMap (fun v =>
      (aggregateByField s field v).map (fun st => (v, st))))
  else .error groupByErrorMsg

/-- Lookup of a group key in a successful group_by result. -/
def okLookup (e : Except String (List (String × AggregateStats)))
    (k : String) : Option AggregateStats :=
  match e with
  | .ok l => List.lookup k l
  | .error _ => none

/-- A nonempty filtered row set yields aggregate statistics. -/
theorem aggregateRows_filter_isSome (s : Store) (q : MigRow → Bool)
    (r : MigRow) (hr : r ∈ s) (hq : q r = true) :
    ∃ st, aggregateRows (s.filter q) = some st := by
  have hmem : r ∈ s.filter q := List.mem_filter.mpr ⟨hr, hq⟩
  have hlen : (s.filter q).length ≠ 0 := by
    intro h0
    rw [List.length_eq_zero] at h0
    rw [h0] at hmem
    exact absurd hmem (List.not_mem_nil r)
  unfold aggregateRows
  rw [if_neg hlen]
  exact ⟨_, rfl⟩

/-- For a nonempty grouping value, the filter used by group_by selects
exactly the rows whose column equals the value. -/
theorem aggregateByField_nonempty (s : Store) (field v : String)
    (hv : v.isEmpty = false)
    (hf : field = "project_name" ∨ field = "target_language" ∨
      field = "strategy") :
    aggregateByField s field v =
      aggregateRows (s.filter (fun r => colOf field r == v)) := by
  rcases hf with h | h | h <;> subst h <;>
    · unfold aggregateByField MigrationDatabase.aggregate
      simp only [beq_self_eq_true, if_pos, String.reduceBEq, Bool.false_eq_true,
        if_false, if_true]
      congr 1
      apply List.filter_congr
      intro r _
      simp [matchesFilter, hv, colOf]

/-- A record whose project name is the empty string. -/
def mE : MigrationMetrics :=
  { identity := { cId with run_id := "r1", project_name := "" } }

/-- A record with project name p, different cost, other run id. -/
def mP : MigrationMetrics :=
  { identity := { cId with run_id := "r2", project_name := "p" },
    cost := { total_cost_usd := 5 } }

/-- A store holding one row with project name empty and one with p. -/
def c7store : Store :=
  MigrationDatabase.insert (MigrationDatabase.insert [] mE) mP

/-- Counterexample for claim C7: grouping this store by project name maps
the distinct value empty-string to statistics over 2 rows, although only
1 row carries that value: an empty grouping value is treated as an
absent filter, so its statistics are not restricted to that value. -/
theorem group_by_empty_value_unrestricted :
    (okLookup (MigrationDatabase.group_by c7store ("project_name")) "").map
        (fun st => st.count) = some 2 ∧
    (c7store.filter (fun r => r.project_name == "")).length = 1 := by
  constructor <;> rfl

/-- Claim C7 (amended): group_by succeeds exactly on the allow-listed
fields project_name, target_language and strategy, returning for each
distinct column value the aggregate statistics of the rows selected by
the corresponding filter — which for a non-empty value are exactly the
rows carrying that value (an empty-string value imposes no restriction);
every other field yields an invalid-argument error, not a crash and not
a silent empty result. -/
theorem group_by_spec (s : Store) (field : String) :
    (field ≠ "project_name" → field ≠ "target_language" →
      field ≠ "strategy" →
        MigrationDatabase.group_by s field = .error groupByErrorMsg) ∧
    (field = "project_name" ∨ field = "target_language" ∨
        field = "strategy" →
      ∃ l, MigrationDatabase.group_by s field = .ok l ∧
        (∀ v, v ∈ s.map (colOf field) → ∃ st, (v, st) ∈ l) ∧
        (∀ v st, (v, st) ∈ l → v.isEmpty = false →
          some st = aggregateRows
            (s.filter (fun r => colOf field r == v)))) := by
  constructor
  · intro h1 h2 h3
    have e1 : (field == "project_name") = false := beq_eq_false_iff_ne.mpr h1
    have e2 : (field == "target_language") = false := beq_eq_false_iff_ne.mpr h2
    have e3 : (field == "strategy") = false := beq_eq_false_iff_ne.mpr h3
    simp [MigrationDatabase.group_by, e1, e2, e3]
  · intro hf
    have hok : MigrationDatabase.group_by s field =
        .ok (((s.map (colOf field)).dedup).filterMap (fun v =>
          (aggregateByField s field v).map (fun st => (v, st)))) := by
      rcases hf with h | h | h <;> subst h <;> rfl
    refine ⟨_, hok, ?_, ?_⟩
    · intro v hv
      obtain ⟨r, hr, hcol⟩ := List.mem_map.mp hv
      have hsome : ∃ st, aggregateByField s field v = some st := by
        rcases hf with h | h | h <;> subst h <;>
          · unfold aggregateByField MigrationDatabase.aggregate
            simp only [beq_self_eq_true, if_pos, String.reduceBEq,
              Bool.false_eq_true, if_false, if_true]
            apply aggregateRows_filter_isSome _ _ r hr
            by_cases hv0 : v.isEmpty <;>
              simp [matchesFilter, hv0, ← hcol, colOf]
      obtain ⟨st, hst⟩ := hsome
      refine ⟨st, List.mem_filterMap.mpr ⟨v, List.mem_dedup.mpr hv, ?_⟩⟩
      rw [hst]
      rfl
    · intro v st hmem hvne
      obtain ⟨a, _, heq⟩ := List.mem_filterMap.mp hmem
      obtain ⟨st0, hst0, hpair⟩ := Option.map_eq_some'.mp heq
      injection hpair with hfst hsnd
      have hv : aggregateByField s field v = some st := by
        rw [← hfst, hst0, hsnd]
      rw [← hv]
      exact aggregateByField_nonempty s field v hvne hf

/-- Witness for the amended claim C7: grouping by a field outside the
allow-list yields the invalid-argument error. -/
theorem group_by_spec_witness :
    MigrationDatabase.group_by c7store ("bogus") = .error groupByErrorMsg :=
  (group_by_spec c7store ("bogus")).1 (by decide) (by decide) (by decide)

/-! ## Rust inline-test classifier (runner.py, measure_loc for rust,
dispatching to the per-file counter with the brace-depth state machine).
A file is a list of lines; a line is a list of characters. -/

/-- The opening brace character. -/
def openBrace : Char := Char.ofNat 123

/-- The closing brace character. -/
def closeBrace : Char := Char.ofNat 125

/-- Python str.strip(): drop leading and trailing whitespace. -/
def stripLine (l : List Char) : List Char :=
  ((l.dropWhile Char.isWhitespace).reverse.dropWhile Char.isWhitespace).reverse

/-- Whether a stripped line starts with a double slash line comment. -/
def startsWithSlashes : List Char → Bool
  | '/' :: '/' :: _ => true
  | _ => false

/-- Python substring containment (pat in line). -/
def containsPat (pat : List Char) : List Char → Bool
  | [] => pat.isEmpty
  | c :: rest => pat.isPrefixOf (c :: rest) || containsPat pat rest

/-- The cfg-test attribute marker text. -/
def cfgTestPat : List Char := ("#[cfg(test)]").toList

/-- The inline test module marker text. -/
def modTestsPat : List Char := ("mod tests").toList

/-- The single opening brace, as a containment pattern. -/
def bracePat : List Char := [openBrace]

/-- Net brace count of one line: open braces minus close braces. -/
def braceDelta (l : List Char) : ℤ :=
  (l.count openBrace : ℤ) - (l.count closeBrace : ℤ)

/-- A countable line: neither blank nor a full-line comment after strip. -/
def countableLine (l : List Char) : Bool :=
  !(stripLine l).isEmpty && !startsWithSlashes (stripLine l)

/-- The test-block start condition of the scanner: the cfg-test marker,
or a mod-tests line that also opens a brace. -/
def isTestMarkerLine (l : List Char) : Bool :=
  containsPat cfgTestPat l ||
    (containsPat modTestsPat l && containsPat bracePat l)

/-- The scanner state of the per-file counter in runner.py. -/
structure RustLocState where
  prod_loc : ℕ
  test_loc : ℕ
  in_test_block : Bool
  brace_depth : ℤ
  test_block_start_depth : ℤ
deriving DecidableEq, Repr

/-- One loop iteration of the counter: skip blank and comment lines;
outside a test block a marker line records the current depth as the
base, counts as test and opens the block; inside a test block every
countable line counts as test while the depth is updated, and the block
closes when the depth falls to the base or below; any other countable
line counts as production. -/
def rustLocStep (s : RustLocState) (line : List Char) : RustLocState :=
  let stripped := stripLine line
  if stripped.isEmpty || startsWithSlashes stripped then s
  else if !s.in_test_block && isTestMarkerLine line then
    { prod_loc := s.prod_loc, test_loc := s.test_loc + 1,
      in_test_block := true,
      brace_depth := s.brace_depth + braceDelta line,
      test_block_start_depth := s.brace_depth }
  else if s.in_test_block then
    let d := s.brace_depth + braceDelta line
    { prod_loc := s.prod_loc, test_loc := s.test_loc + 1,
      in_test_block := decide (s.test_block_start_depth < d),
      brace_depth := d,
      test_block_start_depth := s.test_block_start_depth }
  else
    { prod_loc := s.prod_loc + 1, test_loc := s.test_loc,
      in_test_block := false,
      brace_depth := s.brace_depth + braceDelta line,
      test_block_start_depth := s.test_block_start_depth }

/-- The initial scanner state: zero counters, outside any test block. -/
def initRustState : RustLocState :=
  { prod_loc := 0, test_loc := 0, in_test_block := false,
    brace_depth := 0, test_block_start_depth := 0 }

/-- The per-file counter of runner.py: production and test line counts. -/
def count_rust_test_loc (lines : List (List Char)) : ℕ × ℕ :=
  let s := lines.foldl rustLocStep initRustState
  (s.prod_loc, s.test_loc)

/-- Net brace count over the countable lines of a file prefix. -/
def braceSum (lines : List (List Char)) : ℤ :=
  ((lines.filter countableLine).map braceDelta).sum

/-- A blank or comment line leaves the scanner state unchanged. -/
theorem rustLocStep_skip (s : RustLocState) (l : List Char)
    (h : countableLine l = false) : rustLocStep s l = s := by
  unfold countableLine at h
  unfold rustLocStep
  cases h1 : (stripLine l).isEmpty <;>
    cases h2 : startsWithSlashes (stripLine l) <;> simp_all

/-- Outside a test block, a countable marker line counts as test, opens
the block and records the current depth as the base depth. -/
theorem rustLocStep_marker (s : RustLocState) (l : List Char)
    (hs : s.in_test_block = false) (hc : countableLine l = true)
    (hm : isTestMarkerLine l = true) :
    rustLocStep s l =
      { prod_loc := s.prod_loc, test_loc := s.test_loc + 1,
        in_test_block := true,
        brace_depth := s.brace_depth + braceDelta l,
        test_block_start_depth := s.brace_depth } := by
  unfold countableLine at hc
  unfold rustLocStep
  have h1 : ((stripLine l).isEmpty || startsWithSlashes (stripLine l)) = false := by
    cases ha : (stripLine l).isEmpty <;>
      cases hb : startsWithSlashes (stripLine l) <;> simp_all
  simp [h1, hs, hm]

/-- Inside a test block, a countable line counts as test, updates the
depth, and the block stays open exactly while the depth is above the
base depth. -/
theorem rustLocStep_in_test (s : RustLocState) (l : List Char)
    (hs : s.in_test_block = true) (hc : countableLine l = true) :
    rustLocStep s l =
      { prod_loc := s.prod_loc, test_loc := s.test_loc + 1,
        in_test_block :=
          decide (s.test_block_start_depth < s.brace_depth + braceDelta l),
        brace_depth := s.brace_depth + braceDelta l,
        test_block_start_depth := s.test_block_start_depth } := by
  unfold countableLine at hc
  unfold rustLocStep
  have h1 : ((stripLine l).isEmpty || startsWithSlashes (stripLine l)) = false := by
    cases ha : (stripLine l).isEmpty <;>
      cases hb : startsWithSlashes (stripLine l) <;> simp_all
  simp [h1, hs]

/-- Outside a test block, a countable non-marker line counts as
production and updates the depth. -/
theorem rustLocStep_production (s : RustLocState) (l : List Char)
    (hs : s.in_test_block = false) (hc : countableLine l = true)
    (hm : isTestMarkerLine l = false) :
    rustLocStep s l =
      { prod_loc := s.prod_loc + 1, test_loc := s.test_loc,
        in_test_block := false,
        brace_depth := s.brace_depth + braceDelta l,
        test_block_start_depth := s.test_block_start_depth } := by
  unfold countableLine at hc
  unfold rustLocStep
  have h1 : ((stripLine l).isEmpty || startsWithSlashes (stripLine l)) = false := by
    cases ha : (stripLine l).isEmpty <;>
      cases hb : startsWithSlashes (stripLine l) <;> simp_all
  simp [h1, hs, hm]

/-- Folding the scanner over marker-free lines from a state outside a
test block counts every countable line as production and accumulates the
net brace depth. -/
theorem rustLoc_fold_no_marker (pre : List (List Char)) (s : RustLocState)
    (hs : s.in_test_block = false)
    (h : ∀ l ∈ pre, isTestMarkerLine l = false) :
    List.foldl rustLocStep s pre =
      { prod_loc := s.prod_loc + pre.countP countableLine,
        test_loc := s.test_loc, in_test_block := false,
        brace_depth := s.brace_depth + braceSum pre,
        test_block_start_depth := s.test_block_start_depth } := by
  induction pre generalizing s with
  | nil =>
    cases s
    simp_all [braceSum]
  | cons l pre ih =>
    rw [List.foldl_cons]
    by_cases hc : countableLine l = true
    · have hm : isTestMarkerLine l = false := h l (by simp)
      rw [rustLocStep_production s l hs hc hm]
      rw [ih _ rfl (fun x hx => h x (by simp [hx]))]
      have hcount : (l :: pre).countP countableLine =
          pre.countP countableLine + 1 := by
        simp [List.countP_cons, hc]
      have hbs : braceSum (l :: pre) = braceDelta l + braceSum pre := by
        simp [braceSum, List.filter_cons, hc]
      rw [hcount, hbs]
      dsimp only
      congr 1 <;> first | rfl | omega
    · have hcf : countableLine l = false := by simpa using hc
      rw [rustLocStep_skip s l hcf]
      rw [ih s hs (fun x hx => h x (by simp [hx]))]
      have hcount : (l :: pre).countP countableLine =
          pre.countP countableLine := by
        simp [List.countP_cons, hcf]
      have hbs : braceSum (l :: pre) = braceSum pre := by
        simp [braceSum, List.filter_cons, hcf]
      rw [hcount, hbs]

/-- A mixed file: two production lines around an inline test block with a
nested brace level, demonstrating that the region ends when the depth
returns to the base depth. -/
def exampleRustFile : List (List Char) :=
  [("fn a() \x7b\x7d").toList,
   ("").toList,
   ("#[cfg(test)]").toList,
   ("mod tests \x7b").toList,
   ("  fn t() \x7b\x7d").toList,
   ("\x7d").toList,
   ("fn b() \x7b\x7d").toList]

/-- Claim C3: the inline-split classifier profile for Rust files.  Lines
before the first marker count as production; a countable marker line
records the current brace depth as the test-block base depth and counts
as test; inside the block every countable line counts as test while the
brace depth is tracked per line, and the block ends exactly when the
depth returns to at or below the base depth, after which countable lines
count as production again; a file without a marker reports all its
countable lines as production.  The final conjunct evaluates the scanner
on a mixed file with a nested brace inside the test block. -/
theorem rust_inline_split :
    (∀ pre rest, (∀ l ∈ pre, isTestMarkerLine l = false) →
        List.foldl rustLocStep initRustState (pre ++ rest) =
          List.foldl rustLocStep
            { prod_loc := pre.countP countableLine, test_loc := 0,
              in_test_block := false, brace_depth := braceSum pre,
              test_block_start_depth := 0 } rest) ∧
    (∀ lines, (∀ l ∈ lines, isTestMarkerLine l = false) →
        count_rust_test_loc lines = (lines.countP countableLine, 0)) ∧
    (∀ s l, s.in_test_block = false → countableLine l = true →
        isTestMarkerLine l = true →
        rustLocStep s l =
          { prod_loc := s.prod_loc, test_loc := s.test_loc + 1,
            in_test_block := true,
            brace_depth := s.brace_depth + braceDelta l,
            test_block_start_depth := s.brace_depth }) ∧
    (∀ s l, s.in_test_block = true → countableLine l = true →
        rustLocStep s l =
          { prod_loc := s.prod_loc, test_loc := s.test_loc + 1,
            in_test_block :=
              decide (s.test_block_start_depth <
                s.brace_depth + braceDelta l),
            brace_depth := s.brace_depth + braceDelta l,
            test_block_start_depth := s.test_block_start_depth }) ∧
    (∀ s l, s.in_test_block = false → countableLine l = true →
        isTestMarkerLine l = false →
        rustLocStep s l =
          { prod_loc := s.prod_loc + 1, test_loc := s.test_loc,
            in_test_block := false,
            brace_depth := s.brace_depth + braceDelta l,
            test_block_start_depth := s.test_block_start_depth }) ∧
    (∀ s l, countableLine l = false → rustLocStep s l = s) ∧
    count_rust_test_loc exampleRustFile = (2, 4) := by
  refine ⟨?_, ?_, rustLocStep_marker, rustLocStep_in_test,
    rustLocStep_production, rustLocStep_skip, ?_⟩
  · intro pre rest h
    rw [List.foldl_append]
    rw [rustLoc_fold_no_marker pre initRustState rfl h]
    congr 1
    simp [initRustState]
  · intro lines h
    unfold count_rust_test_loc
    rw [rustLoc_fold_no_marker lines initRustState rfl h]
    simp [initRustState]
  · decide

/-- Witness for claim C3: a two-line file without a marker (one code
line, one comment line) reports one production line and no test lines. -/
theorem rust_inline_split_witness :
    count_rust_test_loc [("fn a() \x7b\x7d").toList, ("// c").toList] =
      (1, 0) :=
  (rust_inline_split.2.1 [("fn a() \x7b\x7d").toList, ("// c").toList]
    (by decide)).trans (by decide)

/-! ## Deserialization (schema.py, MigrationMetrics.from_dict).  The
input dictionary is modelled with one optional field per top-level key;
each present sub-dictionary is modelled field by field with optional
entries mirroring the .get defaults (the identity sub-dictionary, which
the code unpacks as required keyword arguments, is modelled as a parsed
IdentityMetrics value).  A raised KeyError is an Except error value. -/

/-- The timing sub-dictionary. -/
structure TimingDict where
  wall_clock_duration_ms : Option ℤ := none
  api_duration_ms : Option ℤ := none
  phase_durations_ms : Option (List (String × ℤ)) := none
  module_durations : Option (List ModuleTiming) := none
deriving DecidableEq, Repr

/-- TimingMetrics from the timing sub-dictionary, defaulting each key. -/
def buildTiming (d : TimingDict) : TimingMetrics :=
  { wall_clock_duration_ms := d.wall_clock_duration_ms.getD 0,
    api_duration_ms := d.api_duration_ms.getD 0,
    phase_durations_ms := d.phase_durations_ms.getD [],
    module_durations := d.module_durations.getD [] }

/-- The tokens sub-dictionary. -/
structure TokensDict where
  input_tokens : Option ℤ := none
  output_tokens : Option ℤ := none
  cache_creation_input_tokens : Option ℤ := none
  cache_read_input_tokens : Option ℤ := none
deriving DecidableEq, Repr

/-- TokenMetrics from the tokens sub-dictionary, defaulting each key. -/
def buildTokens (d : TokensDict) : TokenMetrics :=
  { input_tokens := d.input_tokens.getD 0,
    output_tokens := d.output_tokens.getD 0,
    cache_creation_input_tokens := d.cache_creation_input_tokens.getD 0,
    cache_read_input_tokens := d.cache_read_input_tokens.getD 0 }

/-- The cost sub-dictionary (keyword expansion into CostMetrics). -/
structure CostDict where
  total_cost_usd : Option ℚ := none
  input_tokens_cost_usd : Option ℚ := none
  output_tokens_cost_usd : Option ℚ := none
  cache_creation_cost_usd : Option ℚ := none
deriving DecidableEq, Repr

/-- CostMetrics from the cost sub-dictionary. -/
def buildCost (d : CostDict) : CostMetrics :=
  { total_cost_usd := d.total_cost_usd.getD 0,
    input_tokens_cost_usd := d.input_tokens_cost_usd.getD 0,
    output_tokens_cost_usd := d.output_tokens_cost_usd.getD 0,
    cache_creation_cost_usd := d.cache_creation_cost_usd.getD 0 }

/-- The agent sub-dictionary. -/
structure AgentDict where
  total_turns : Option ℤ := none
  total_messages : Option ℤ := none
  subagent_invocations : Option (List (String × ℤ)) := none
  tool_invocations : Option (List (String × ℤ)) := none
  error_recovery_events : Option ℤ := none
  retry_count : Option ℤ := none
deriving DecidableEq, Repr

/-- AgentMetrics from the agent sub-dictionary. -/
def buildAgent (d : AgentDict) : AgentMetrics :=
  { total_turns := d.total_turns.getD 0,
    total_messages := d.total_messages.getD 0,
    subagent_invocations := d.subagent_invocations.getD [],
    tool_invocations := d.tool_invocations.getD [],
    error_recovery_events := d.error_recovery_events.getD 0,
    retry_count := d.retry_count.getD 0 }

/-- A code-metrics sub-dictionary (an already-optional field equal to
none stands both for an absent key and for an explicit null). -/
structure CodeDict where
  production_loc : Option ℤ := none
  test_loc : Option ℤ := none
  total_loc : Option ℤ := none
  module_count : Option ℤ := none
  function_count : Option ℤ := none
  avg_cyclomatic_complexity : Option ℚ := none
  max_cyclomatic_complexity : Option ℤ := none
  external_dependencies : Option ℤ := none
  maintainability_index : Option ℚ := none
deriving DecidableEq, Repr

/-- CodeMetrics from a code-metrics sub-dictionary. -/
def buildCode (d : CodeDict) : CodeMetrics :=
  { production_loc := d.production_loc.getD 0,
    test_loc := d.test_loc.getD 0,
    total_loc := d.total_loc.getD 0,
    module_count := d.module_count.getD 0,
    function_count := d.function_count.getD 0,
    avg_cyclomatic_complexity := d.avg_cyclomatic_complexity.getD 0,
    max_cyclomatic_complexity := d.max_cyclomatic_complexity.getD 0,
    external_dependencies := d.external_dependencies.getD 0,
    maintainability_index := d.maintainability_index }

/-- The compilation sub-dictionary. -/
structure CompilationDict where
  passed : Option Bool := none
  error_count : Option ℤ := none
  warning_count : Option ℤ := none
deriving DecidableEq, Repr

/-- The linting sub-dictionary. -/
structure LintingDict where
  passed : Option Bool := none
  tool : Option String := none
  error_count : Option ℤ := none
  warning_count : Option ℤ := none
deriving DecidableEq, Repr

/-- The formatting sub-dictionary. -/
structure FormattingDict where
  passed : Option Bool := none
  tool : Option String := none
deriving DecidableEq, Repr

/-- The unit-tests sub-dictionary. -/
structure TestDict where
  passed : Option Bool := none
  total : Option ℤ := none
  passed_count : Option ℤ := none
  failed_count : Option ℤ := none
  skipped_count : Option ℤ := none
deriving DecidableEq, Repr

/-- The coverage sub-dictionary. -/
structure CoverageDict where
  line_coverage_pct : Option ℚ := none
  function_coverage_pct : Option ℚ := none
  branch_coverage_pct : Option ℚ := none
deriving DecidableEq, Repr

/-- The quality-gates sub-dictionary of sub-dictionaries. -/
structure QualityGatesDict where
  compilation : Option CompilationDict := none
  linting : Option LintingDict := none
  formatting : Option FormattingDict := none
  unit_tests : Option TestDict := none
  coverage : Option CoverageDict := none
deriving DecidableEq, Repr

/-- QualityGates from its sub-dictionary, each block defaulting. -/
def buildQG (d : QualityGatesDict) : QualityGates :=
  { compilation :=
      (let c := d.compilation.getD {}
       { passed := c.passed.getD false, error_count := c.error_count.getD 0,
         warning_count := c.warning_count.getD 0 }),
    linting :=
      (let c := d.linting.getD {}
       { passed := c.passed.getD false, tool := c.tool.getD "",
         error_count := c.error_count.getD 0,
         warning_count := c.warning_count.getD 0 }),
    formatting :=
      (let c := d.formatting.getD {}
       { passed := c.passed.getD false, tool := c.tool.getD "" }),
    unit_tests :=
      (let c := d.unit_tests.getD {}
       { passed := c.passed.getD false, total := c.total.getD 0,
         passed_count := c.passed_count.getD 0,
         failed_count := c.failed_count.getD 0,
         skipped_count := c.skipped_count.getD 0 }),
    coverage :=
      (let c := d.coverage.getD {}
       { line_coverage_pct := c.line_coverage_pct,
         function_coverage_pct := c.function_coverage_pct,
         branch_coverage_pct := c.branch_coverage_pct }) }

/-- The behavioural-contract sub-dictionary. -/
structure IoDict where
  total_test_cases : Option ℤ := none
  passed : Option ℤ := none
  failed : Option ℤ := none
  unsupported : Option ℤ := none
  feature_results : Option (List FeatureResult) := none
deriving DecidableEq, Repr

/-- ContractMetrics from its sub-dictionary. -/
def buildIo (d : IoDict) : ContractMetrics :=
  { total_test_cases := d.total_test_cases.getD 0,
    passed := d.passed.getD 0,
    failed := d.failed.getD 0,
    unsupported := d.unsupported.getD 0,
    feature_results := d.feature_results.getD [] }

/-- The outcome sub-dictionary. -/
structure OutcomeDict where
  status : Option String := none
  modules_completed : Option ℤ := none
  modules_total : Option ℤ := none
  blocking_issues : Option (List String) := none
  notes : Option String := none
deriving DecidableEq, Repr

/-- OutcomeMetrics from the outcome sub-dictionary. -/
def buildOutcome (d : OutcomeDict) : OutcomeMetrics :=
  { status := d.status.getD ("failure"),
    modules_completed := d.modules_completed.getD 0,
    modules_total := d.modules_total.getD 0,
    blocking_issues := d.blocking_issues.getD [],
    notes := d.notes }

/-- The top-level dictionary passed to from_dict: one optional entry per
key that the code reads. -/
structure MigrationMetricsDict where
  identity : Option IdentityMetrics := none
  timing : Option TimingDict := none
  cost : Option CostDict := none
  tokens : Option TokensDict := none
  agent : Option AgentDict := none
  source_metrics : Option CodeDict := none
  target_metrics : Option CodeDict := none
  quality_gates : Option QualityGatesDict := none
  io_contract : Option IoDict := none
  outcome : Option OutcomeDict := none
  schema_version : Option String := none
deriving DecidableEq, Repr

/-- MigrationMetrics.from_dict: the identity, timing and tokens keys are
read with direct indexing (raising KeyError when absent, in that order,
since the cost lookup between them cannot fail); every other key is read
with .get and falls back to a default-valued sub-record. -/
def MigrationMetrics.from_dict (d : MigrationMetricsDict) :
    Except String MigrationMetrics :=
  match d.identity with
  | none => .error ("KeyError: identity")
  | some idd =>
    match d.timing with
    | none => .error ("KeyError: timing")
    | some td =>
      match d.tokens with
      | none => .error ("KeyError: tokens")
      | some tkd =>
        .ok { identity := idd,
              timing := buildTiming td,
              cost := buildCost (d.cost.getD {}),
              tokens := buildTokens tkd,
              agent := buildAgent (d.agent.getD {}),
              source_metrics := buildCode (d.source_metrics.getD {}),
              target_metrics := buildCode (d.target_metrics.getD {}),
              quality_gates := buildQG (d.quality_gates.getD {}),
              io_contract := buildIo (d.io_contract.getD {}),
              outcome := buildOutcome (d.outcome.getD {}),
              schema_version := d.schema_version.getD SCHEMA_VERSION }

/-- Claim C10: from_dict raises a key-lookup error when the identity,
timing or tokens key is absent, and succeeds when all three are present,
producing default-valued sub-records for every absent optional block. -/
theorem from_dict_keys (d : MigrationMetricsDict) :
    (d.identity = none →
        MigrationMetrics.from_dict d = .error ("KeyError: identity")) ∧
    (∀ idd, d.identity = some idd → d.timing = none →
        MigrationMetrics.from_dict d = .error ("KeyError: timing")) ∧
    (∀ idd td, d.identity = some idd → d.timing = some td →
        d.tokens = none →
        MigrationMetrics.from_dict d = .error ("KeyError: tokens")) ∧
    (∀ idd td tkd, d.identity = some idd → d.timing = some td →
        d.tokens = some tkd →
        ∃ m, MigrationMetrics.from_dict d = .ok m) ∧
    (∀ idd td tkd, d.identity = some idd → d.timing = some td →
        d.tokens = some tkd → d.cost = none → d.agent = none →
        d.source_metrics = none → d.target_metrics = none →
        d.quality_gates = none → d.io_contract = none → d.outcome = none →
        d.schema_version = none →
        MigrationMetrics.from_dict d =
          .ok { identity := idd, timing := buildTiming td,
                tokens := buildTokens tkd }) := by
  refine ⟨?_, ?_, ?_, ?_, ?_⟩
  · intro h
    unfold MigrationMetrics.from_dict
    rw [h]
  · intro idd h1 h2
    unfold MigrationMetrics.from_dict
    rw [h1, h2]
  · intro idd td h1 h2 h3
    unfold MigrationMetrics.from_dict
    rw [h1, h2, h3]
  · intro idd td tkd h1 h2 h3
    unfold MigrationMetrics.from_dict
    rw [h1, h2, h3]
    exact ⟨_, rfl⟩
  · intro idd td tkd h1 h2 h3 hc ha hsm htm hqg hio ho hsv
    unfold MigrationMetrics.from_dict
    rw [h1, h2, h3, hc, ha, hsm, htm, hqg, hio, ho, hsv]
    rfl

/-- A dictionary holding only the three required keys. -/
def c10dict : MigrationMetricsDict :=
  { identity := some cId, timing := some {}, tokens := some {} }

/-- Witness for claim C10: the empty dictionary fails with the identity
key error, and a dictionary with only the three required keys parses to
the record with all-default optional blocks. -/
theorem from_dict_keys_witness :
    MigrationMetrics.from_dict ({} : MigrationMetricsDict) =
      .error ("KeyError: identity") ∧
    MigrationMetrics.from_dict c10dict = .ok { identity := cId } := by
  constructor
  · exact (from_dict_keys ({} : MigrationMetricsDict)).1 rfl
  · have h := (from_dict_keys c10dict).2.2.2.2 cId {} {} rfl rfl rfl rfl rfl
      rfl rfl rfl rfl rfl rfl
    rw [h]
    rfl
